import Mathlib

/-! Identity-provider procedures of the EKS plan engine.

A shallow embedding of `pkg/eks/identityprovider/procedures.go`.

* Go pointers (`*string`, `*OidcIdentityProviderConfig`) are `Option`s; reading a field
  through a nil pointer is the outcome `Outcome.panicked`.
* A Go `map[string]T` is an association list; the order of the list is the order in which
  `range` happens to visit the map, and statements about maps are made through membership.
* The remote client answers a call from the calls made so far, so every deterministic
  behaviour of the service is a value of `EKSAPI`; every `Do` threads the list of calls made.
-/

set_option autoImplicit false

namespace identityprovider

/-! ## Go values -/

/-- A `context.Context`, told apart by an identifier. -/
structure Context where
  id : Nat
deriving DecidableEq, Repr

/-- A Go `map[string]T` (nil and empty are not told apart: `len` and `range` agree on them). -/
abbrev GoMap (α : Type) := List (String × α)

/-- Keys of a map, in the order `range` visits them. -/
def GoMap.keys {α : Type} (m : GoMap α) : List String :=
  m.map Prod.fst

/-- A map holds each key once. -/
def GoMap.WellFormed {α : Type} (m : GoMap α) : Prop :=
  (GoMap.keys m).Nodup

instance GoMap.decidableWellFormed {α : Type} (m : GoMap α) : Decidable (GoMap.WellFormed m) :=
  inferInstanceAs (Decidable (GoMap.keys m).Nodup)

/-- Go `len(m)`. -/
def GoMap.len {α : Type} (m : GoMap α) : Nat :=
  m.length

/-- A Go `error` value of `github.com/pkg/errors`: a plain error, or one wrapped with a message. -/
inductive GoError where
  | leaf (msg : String)
  | withMessage (cause : GoError) (msg : String)
deriving DecidableEq, Repr

/-- The method `Error() string`: a wrapped error prints its message, `": "`, and its cause. -/
def GoError.Error : GoError → String
  | .leaf msg => msg
  | .withMessage cause msg => msg ++ ": " ++ cause.Error

/-- The error directly under a wrapper, if any. -/
def GoError.Unwrap : GoError → Option GoError
  | .leaf _ => none
  | .withMessage cause _ => some cause

/-- The function `errors.Cause`: the innermost error. -/
def errors.Cause : GoError → GoError
  | .leaf msg => .leaf msg
  | .withMessage cause _ => errors.Cause cause

/-- The function `errors.Wrap`: nil stays nil, an error is annotated with `message`. -/
def errors.Wrap (err : Option GoError) (message : String) : Option GoError :=
  match err with
  | none => none
  | some e => some (.withMessage e message)

/-- The function `aws.String`: a pointer to the value. -/
def aws_String (v : String) : Option String :=
  some v

/-- The function `aws.StringValue`: the pointed-to value, or `""` for nil. -/
def aws_StringValue (v : Option String) : String :=
  match v with
  | some s => s
  | none => ""

/-- The function `aws.StringMap`: the same keys, each value behind a pointer. -/
def aws_StringMap (src : GoMap String) : GoMap (Option String) :=
  src.map fun kv => (kv.1, aws_String kv.2)

/-- The constant `eks.ConfigStatusActive`. -/
def eks.ConfigStatusActive : String := "ACTIVE"

/-! ## Requests and answers of the EKS client -/

/-- The request part naming a configuration (`Type_` is the Go field `Type`). -/
structure eks.IdentityProviderConfig where
  Name : Option String
  Type_ : Option String
deriving DecidableEq, Repr

structure eks.DescribeIdentityProviderConfigInput where
  ClusterName : Option String
  IdentityProviderConfig : Option eks.IdentityProviderConfig
deriving DecidableEq, Repr

structure eks.DisassociateIdentityProviderConfigInput where
  ClusterName : Option String
  IdentityProviderConfig : Option eks.IdentityProviderConfig
deriving DecidableEq, Repr

structure eks.OidcIdentityProviderConfigRequest where
  ClientId : Option String
  GroupsClaim : Option String
  GroupsPrefix : Option String
  IdentityProviderConfigName : Option String
  IssuerUrl : Option String
  RequiredClaims : GoMap (Option String)
  UsernameClaim : Option String
  UsernamePrefix : Option String
deriving DecidableEq, Repr

/-- The field `Tags` is `none` while it is left unset (a nil map, omitted from the request). -/
structure eks.AssociateIdentityProviderConfigInput where
  ClusterName : Option String
  Oidc : Option eks.OidcIdentityProviderConfigRequest
  Tags : Option (GoMap (Option String))
deriving DecidableEq, Repr

structure eks.TagResourceInput where
  ResourceArn : Option String
  Tags : Option (GoMap (Option String))
deriving DecidableEq, Repr

structure eks.UntagResourceInput where
  ResourceArn : Option String
  TagKeys : List (Option String)
deriving DecidableEq, Repr

/-- The part of a described configuration the procedures read. -/
structure eks.OidcIdentityProviderConfig where
  Status : Option String
deriving DecidableEq, Repr

structure eks.IdentityProviderConfigResponse where
  Oidc : Option eks.OidcIdentityProviderConfig
deriving DecidableEq, Repr

structure eks.DescribeIdentityProviderConfigOutput where
  IdentityProviderConfig : Option eks.IdentityProviderConfigResponse
deriving DecidableEq, Repr

/-- One call on the EKS client, named by the client method; the two tagging methods take
no context. -/
inductive Call where
  | DescribeIdentityProviderConfigWithContext (ctx : Context)
      (input : eks.DescribeIdentityProviderConfigInput)
  | DisassociateIdentityProviderConfigWithContext (ctx : Context)
      (input : eks.DisassociateIdentityProviderConfigInput)
  | AssociateIdentityProviderConfigWithContext (ctx : Context)
      (input : eks.AssociateIdentityProviderConfigInput)
  | TagResource (input : eks.TagResourceInput)
  | UntagResource (input : eks.UntagResourceInput)
deriving DecidableEq, Repr

/-- The context a call was made with, `none` when the method takes none. -/
def Call.ctx : Call → Option Context
  | .DescribeIdentityProviderConfigWithContext ctx _ => some ctx
  | .DisassociateIdentityProviderConfigWithContext ctx _ => some ctx
  | .AssociateIdentityProviderConfigWithContext ctx _ => some ctx
  | .TagResource _ => none
  | .UntagResource _ => none

/-- A call that changes the remote service (everything but Describe). -/
def Call.isMutation : Call → Bool
  | .DescribeIdentityProviderConfigWithContext _ _ => false
  | _ => true

/-- The EKS client of a plan: each method answers from the calls made before it. -/
structure EKSAPI where
  DescribeIdentityProviderConfigWithContext : List Call → Context →
    eks.DescribeIdentityProviderConfigInput →
    Except GoError eks.DescribeIdentityProviderConfigOutput
  DisassociateIdentityProviderConfigWithContext : List Call → Context →
    eks.DisassociateIdentityProviderConfigInput → Except GoError Unit
  AssociateIdentityProviderConfigWithContext : List Call → Context →
    eks.AssociateIdentityProviderConfigInput → Except GoError Unit
  TagResource : List Call → eks.TagResourceInput → Except GoError Unit
  UntagResource : List Call → eks.UntagResourceInput → Except GoError Unit

/-! ## The plan -/

/-- Modelled from the spec: the declaration of `OidcIdentityProviderConfig` is not in the
source; the fields are those `procedures.go` reads, typed as their uses there require, with
the spec's tag mapping. -/
structure OidcIdentityProviderConfig where
  ClientID : String
  GroupsClaim : Option String
  GroupsPrefix : Option String
  IdentityProviderConfigArn : Option String
  IdentityProviderConfigName : String
  IssuerURL : String
  RequiredClaims : GoMap (Option String)
  Tags : GoMap String
  UsernameClaim : Option String
  UsernamePrefix : Option String
deriving DecidableEq, Repr

/-- Modelled from the spec: the declaration of `plan` is not in the source; it is the
spec's Plan, one cluster name, a nullable current and a nullable desired configuration and
the client, under the field names `procedures.go` reads. -/
structure plan where
  eksClient : EKSAPI
  clusterName : String
  currentIdentityProvider : Option OidcIdentityProviderConfig
  desiredIdentityProvider : Option OidcIdentityProviderConfig

/-- How a Go call ends: it returns a value, or it panics on a nil dereference. -/
inductive Outcome (α : Type) where
  | returned (value : α)
  | panicked
deriving DecidableEq, Repr

/-- A computation over the list of remote calls made so far. -/
abbrev Exec (α : Type) := List Call → Outcome α × List Call

/-- The predicate handed to the wait harness, a Go `func() (bool, error)`. -/
abbrev ConditionFunc := Exec (Bool × Option GoError)

/-- The wait harness applied to its backoff: `wait.WaitForWithRetryable(wait.NewBackoff(), ·)`. -/
abbrev Harness := ConditionFunc → Exec (Option GoError)

/-- The package variable `oidcType`. -/
def oidcType : Option String := aws_String "oidc"

/-! ## The wait harness -/

/-- Modelled from the spec: the value `wait.NewBackoff()` returns is not in the source. It
holds the harness's budget, counted in invocations of the predicate (`Steps`), and the
harness's classification of errors into retryable and non-retryable (`retryable`). -/
structure Backoff where
  Steps : Nat
  retryable : GoError → Bool

/-- The timeout error of the harness. -/
def ErrWaitTimeout : GoError := .leaf "timed out waiting for the condition"

/-- Modelled from the spec: `wait.WaitForWithRetryable` is not in the source. The spec's
harness contract: invoke the predicate on a backoff schedule; stop and return success when
`done=true, err=nil`; stop and propagate when `err` is classified non-retryable; stop and
return a timeout error when the budget is exceeded; otherwise retry. A panic of the
predicate unwinds through the harness. -/
def WaitForWithRetryable.loop (retryable : GoError → Bool) (condition : ConditionFunc) :
    Nat → Exec (Option GoError)
  | 0, hist => (.returned (some ErrWaitTimeout), hist)
  | steps + 1, hist =>
    match condition hist with
    | (.panicked, hist1) => (.panicked, hist1)
    | (.returned (true, none), hist1) => (.returned none, hist1)
    | (.returned (_, some err), hist1) =>
      if retryable err then WaitForWithRetryable.loop retryable condition steps hist1
      else (.returned (some err), hist1)
    | (.returned (false, none), hist1) =>
      WaitForWithRetryable.loop retryable condition steps hist1

/-- Modelled from the spec: `wait.WaitForWithRetryable(backoff, condition)`, the spec's
Wait/Backoff harness run with the budget and the classification of `backoff`. -/
def WaitForWithRetryable (backoff : Backoff) : Harness :=
  fun condition hist => WaitForWithRetryable.loop backoff.retryable condition backoff.Steps hist

/-- Modelled from the spec: the harness as `procedures.go` calls it. Both calls hand
`wait.WaitForWithRetryable` the backoff and the predicate and name no retryable error after
them, so this harness classifies no error retryable: an error of the predicate stops the run
and is propagated. `steps` is the budget of `wait.NewBackoff()`, which is not in the source. -/
def WaitForWithRetryable.withoutCodes (steps : Nat) : Harness :=
  WaitForWithRetryable { Steps := steps, retryable := fun _ => false }

/-! ## The procedures -/

structure WaitIdentityProviderAssociatedProcedure where
  plan : plan

def WaitIdentityProviderAssociatedProcedure.Name (_ : WaitIdentityProviderAssociatedProcedure) :
    String :=
  "wait_identity_provider_association"

/-- The predicate `Do` hands to the harness: one Describe call, done when the described
status is `ACTIVE`. -/
def WaitIdentityProviderAssociatedProcedure.condition (w : WaitIdentityProviderAssociatedProcedure)
    (ctx : Context) : ConditionFunc := fun hist =>
  match w.plan.currentIdentityProvider with
  | none => (.panicked, hist)
  | some current =>
    let input : eks.DescribeIdentityProviderConfigInput :=
      { ClusterName := aws_String w.plan.clusterName
        IdentityProviderConfig := some
          { Name := aws_String current.IdentityProviderConfigName
            Type_ := oidcType } }
    let hist1 := hist ++ [Call.DescribeIdentityProviderConfigWithContext ctx input]
    match w.plan.eksClient.DescribeIdentityProviderConfigWithContext hist ctx input with
    | .error err => (.returned (false, some err), hist1)
    | .ok out =>
      match out.IdentityProviderConfig with
      | none => (.panicked, hist1)
      | some config =>
        match config.Oidc with
        | none => (.panicked, hist1)
        | some oidc =>
          if aws_StringValue oidc.Status = eks.ConfigStatusActive then
            (.returned (true, none), hist1)
          else (.returned (false, none), hist1)

/-- The method `Do`: run the predicate in the harness and wrap the error of the run. The
harness `wait.WaitForWithRetryable(wait.NewBackoff(), ·)` is not in the source and is the
parameter `wait`. -/
def WaitIdentityProviderAssociatedProcedure.Do (wait : Harness)
    (w : WaitIdentityProviderAssociatedProcedure) (ctx : Context) : Exec (Option GoError) :=
  fun hist =>
  match wait (w.condition ctx) hist with
  | (.panicked, hist1) => (.panicked, hist1)
  | (.returned (some err), hist1) =>
    (.returned (errors.Wrap (some err)
      "failed waiting for identity provider association to be ready"), hist1)
  | (.returned none, hist1) => (.returned none, hist1)

structure DisassociateIdentityProviderConfig where
  plan : plan

def DisassociateIdentityProviderConfig.Name (_ : DisassociateIdentityProviderConfig) : String :=
  "dissociate_identity_provider"

/-- The predicate `Do` hands to the harness: one Disassociate call, done when it succeeds. -/
def DisassociateIdentityProviderConfig.condition (d : DisassociateIdentityProviderConfig)
    (ctx : Context) : ConditionFunc := fun hist =>
  match d.plan.currentIdentityProvider with
  | none => (.panicked, hist)
  | some current =>
    let input : eks.DisassociateIdentityProviderConfigInput :=
      { ClusterName := aws_String d.plan.clusterName
        IdentityProviderConfig := some
          { Name := aws_String current.IdentityProviderConfigName
            Type_ := oidcType } }
    let hist1 := hist ++ [Call.DisassociateIdentityProviderConfigWithContext ctx input]
    match d.plan.eksClient.DisassociateIdentityProviderConfigWithContext hist ctx input with
    | .error err => (.returned (false, some err), hist1)
    | .ok _ => (.returned (true, none), hist1)

/-- The method `Do`: run the predicate in the harness and wrap the error of the run. The
harness `wait.WaitForWithRetryable(wait.NewBackoff(), ·)` is not in the source and is the
parameter `wait`. -/
def DisassociateIdentityProviderConfig.Do (wait : Harness)
    (d : DisassociateIdentityProviderConfig) (ctx : Context) : Exec (Option GoError) :=
  fun hist =>
  match wait (d.condition ctx) hist with
  | (.panicked, hist1) => (.panicked, hist1)
  | (.returned (some err), hist1) =>
    (.returned (errors.Wrap (some err) "failing disassociating identity provider config"), hist1)
  | (.returned none, hist1) => (.returned none, hist1)

structure AssociateIdentityProviderProcedure where
  plan : plan

def AssociateIdentityProviderProcedure.Name (_ : AssociateIdentityProviderProcedure) : String :=
  "associate_identity_provider"

/-- The request `Do` builds from the desired configuration. -/
def AssociateIdentityProviderProcedure.input (clusterName : String)
    (oidc : OidcIdentityProviderConfig) : eks.AssociateIdentityProviderConfigInput :=
  let input : eks.AssociateIdentityProviderConfigInput :=
    { ClusterName := aws_String clusterName
      Oidc := some
        { ClientId := aws_String oidc.ClientID
          GroupsClaim := oidc.GroupsClaim
          GroupsPrefix := oidc.GroupsPrefix
          IdentityProviderConfigName := aws_String oidc.IdentityProviderConfigName
          IssuerUrl := aws_String oidc.IssuerURL
          RequiredClaims := oidc.RequiredClaims
          UsernameClaim := oidc.UsernameClaim
          UsernamePrefix := oidc.UsernamePrefix }
      Tags := none }
  if GoMap.len oidc.Tags > 0 then { input with Tags := some (aws_StringMap oidc.Tags) }
  else input

/-- The method `Do`: one Associate call with the request built from the desired
configuration; its error comes back wrapped. -/
def AssociateIdentityProviderProcedure.Do (a : AssociateIdentityProviderProcedure)
    (ctx : Context) : Exec (Option GoError) := fun hist =>
  match a.plan.desiredIdentityProvider with
  | none => (.panicked, hist)
  | some oidc =>
    let input := AssociateIdentityProviderProcedure.input a.plan.clusterName oidc
    let hist1 := hist ++ [Call.AssociateIdentityProviderConfigWithContext ctx input]
    match a.plan.eksClient.AssociateIdentityProviderConfigWithContext hist ctx input with
    | .error err => (.returned (errors.Wrap (some err) "failed associating identity provider"), hist1)
    | .ok _ => (.returned none, hist1)

structure UpdatedIdentityProviderTagsProcedure where
  plan : plan

def UpdatedIdentityProviderTagsProcedure.Name (_ : UpdatedIdentityProviderTagsProcedure) :
    String :=
  "update_identity_provider_tags"

/-- The method `Do`: one `TagResource` call on the current ARN with the desired tags. The
context argument is not used: `TagResource` takes none. -/
def UpdatedIdentityProviderTagsProcedure.Do (u : UpdatedIdentityProviderTagsProcedure)
    (_ctx : Context) : Exec (Option GoError) := fun hist =>
  match u.plan.currentIdentityProvider with
  | none => (.panicked, hist)
  | some current =>
    let arn := current.IdentityProviderConfigArn
    match u.plan.desiredIdentityProvider with
    | none => (.panicked, hist)
    | some desired =>
      let input : eks.TagResourceInput :=
        { ResourceArn := arn
          Tags := some (aws_StringMap desired.Tags) }
      let hist1 := hist ++ [Call.TagResource input]
      match u.plan.eksClient.TagResource hist input with
      | .error err => (.returned (errors.Wrap (some err) "updating identity provider tags"), hist1)
      | .ok _ => (.returned none, hist1)

structure RemoveIdentityProviderTagsProcedure where
  plan : plan

def RemoveIdentityProviderTagsProcedure.Name (_ : RemoveIdentityProviderTagsProcedure) :
    String :=
  "remove_identity_provider_tags"

/-- The loop `for key := range tags { keys = append(keys, aws.String(key)) }`. -/
def RemoveIdentityProviderTagsProcedure.collectKeys :
    GoMap String → List (Option String) → List (Option String)
  | [], keys => keys
  | (key, _) :: rest, keys =>
    RemoveIdentityProviderTagsProcedure.collectKeys rest (keys ++ [aws_String key])

/-- The method `Do`: one `UntagResource` call on the current ARN with the keys of the current
tags. The context argument is not used: `UntagResource` takes none. -/
def RemoveIdentityProviderTagsProcedure.Do (r : RemoveIdentityProviderTagsProcedure)
    (_ctx : Context) : Exec (Option GoError) := fun hist =>
  match r.plan.currentIdentityProvider with
  | none => (.panicked, hist)
  | some current =>
    let keys := RemoveIdentityProviderTagsProcedure.collectKeys current.Tags []
    let input : eks.UntagResourceInput :=
      { ResourceArn := current.IdentityProviderConfigArn
        TagKeys := keys }
    let hist1 := hist ++ [Call.UntagResource input]
    match r.plan.eksClient.UntagResource hist input with
    | .error err => (.returned (errors.Wrap (some err) "untagging identity provider"), hist1)
    | .ok _ => (.returned none, hist1)

/-! ## What the spec words, and example values -/

/-- The key set the spec gives RemoveTags: the keys of the current tags that are absent from
the desired tags, all of them when the desired configuration is absent. -/
def specRemoveKeys (current : OidcIdentityProviderConfig)
    (desired : Option OidcIdentityProviderConfig) : List String :=
  match desired with
  | none => GoMap.keys current.Tags
  | some d => (GoMap.keys current.Tags).filter fun k => decide (k ∉ GoMap.keys d.Tags)

/-- The tag map the spec gives UpdateTags: the desired entries whose key is absent from the
current tags or has a different value there. -/
def specUpdateTags (current desired : OidcIdentityProviderConfig) : GoMap String :=
  desired.Tags.filter fun kv => decide (kv ∉ current.Tags)

/-- The status a Describe answer carries, as the poll reads it; `none` for an error and for
an answer without a configuration. -/
def describedStatus (answer : Except GoError eks.DescribeIdentityProviderConfigOutput) :
    Option String :=
  match answer with
  | .error _ => none
  | .ok out =>
    match out.IdentityProviderConfig with
    | none => none
    | some config =>
      match config.Oidc with
      | none => none
      | some oidc => some (aws_StringValue oidc.Status)

/-- The Describe request of a poll for the configuration named `name`. -/
def describeInput (clusterName name : String) : eks.DescribeIdentityProviderConfigInput :=
  { ClusterName := aws_String clusterName
    IdentityProviderConfig := some { Name := aws_String name, Type_ := oidcType } }

/-- The Disassociate request for the configuration named `name`. -/
def disassociateInput (clusterName name : String) : eks.DisassociateIdentityProviderConfigInput :=
  { ClusterName := aws_String clusterName
    IdentityProviderConfig := some { Name := aws_String name, Type_ := oidcType } }

/-- A Describe answer carrying `status`. -/
def describeAnswer (status : String) :
    Except GoError eks.DescribeIdentityProviderConfigOutput :=
  .ok { IdentityProviderConfig := some { Oidc := some { Status := some status } } }

/-- A transient service error. -/
def transientError : GoError := .leaf "ServiceUnavailableException: try again"

/-- A service whose first `failing` calls fail with `transientError` where they can (Describe
and Disassociate), that then describes the status `CREATING` until `pending` more calls were
made and `ACTIVE` from then on, and that accepts every other call. -/
def exampleClient (failing pending : Nat) : EKSAPI :=
  { DescribeIdentityProviderConfigWithContext := fun hist _ _ =>
      if hist.length < failing then .error transientError
      else if hist.length < failing + pending then describeAnswer "CREATING"
      else describeAnswer "ACTIVE"
    DisassociateIdentityProviderConfigWithContext := fun hist _ _ =>
      if hist.length < failing then .error transientError else .ok ()
    AssociateIdentityProviderConfigWithContext := fun _ _ _ => .ok ()
    TagResource := fun _ _ => .ok ()
    UntagResource := fun _ _ => .ok () }

/-- A configuration with the given tags. -/
def exampleConfig (tags : GoMap String) : OidcIdentityProviderConfig :=
  { ClientID := "abc"
    GroupsClaim := some "groups"
    GroupsPrefix := none
    IdentityProviderConfigArn := some "arn:aws:eks:identityproviderconfig/oidc/idp"
    IdentityProviderConfigName := "idp"
    IssuerURL := "https://issuer"
    RequiredClaims := []
    Tags := tags
    UsernameClaim := some "email"
    UsernamePrefix := none }

/-- A plan on `exampleClient` for the cluster `c1`. -/
def examplePlan (failing pending : Nat) (current desired : Option (GoMap String)) : plan :=
  { eksClient := exampleClient failing pending
    clusterName := "c1"
    currentIdentityProvider := current.map exampleConfig
    desiredIdentityProvider := desired.map exampleConfig }

/-- A backoff of nine polls whose harness retries exactly `transientError`. -/
def exampleBackoff : Backoff :=
  { Steps := 9
    retryable := fun err => decide (err = transientError) }

/-- A backoff of nine polls whose harness classifies every error non-retryable. -/
def strictBackoff : Backoff :=
  { Steps := 9
    retryable := fun _ => false }

/-- A plan with a current config on a service that describes the status `CREATING` until
`pending` calls were made and fails every later Describe call with `transientError`. -/
def failingLaterPlan (pending : Nat) : plan :=
  { eksClient :=
      { exampleClient 0 0 with
        DescribeIdentityProviderConfigWithContext := fun hist _ _ =>
          if hist.length < pending then describeAnswer "CREATING" else .error transientError }
    clusterName := "c1"
    currentIdentityProvider := some (exampleConfig [])
    desiredIdentityProvider := none }

/-- A context. -/
def exampleCtx : Context := { id := 7 }

/-- An answer of Describe after which the harness polls again: a status other than `ACTIVE`,
or an error the harness classifies retryable. -/
def pollsAgain (retryable : GoError → Bool)
    (answer : Except GoError eks.DescribeIdentityProviderConfigOutput) : Bool :=
  match answer with
  | .error err => retryable err
  | .ok _ =>
    match describedStatus answer with
    | some status => decide (status ≠ eks.ConfigStatusActive)
    | none => false

/-- The `err` of the pair a client method returns. -/
def callError {α : Type} (answer : Except GoError α) : Option GoError :=
  match answer with
  | .error err => some err
  | .ok _ => none

/-- The error policy of a procedure with the phrase `phrase`: `result` is nil exactly when
`inner` is nil, and an error `e` of `inner` comes back wrapped, with `e` as its cause and
with the message `phrase`, `": "`, the message of `e`. -/
def WrapsWith (phrase : String) (inner result : Option GoError) : Prop :=
  (result = none ↔ inner = none) ∧
  ∀ e : GoError, inner = some e →
    ∃ err : GoError, result = some err ∧ err.Unwrap = some e ∧
      errors.Cause err = errors.Cause e ∧ err.Error = phrase ++ ": " ++ e.Error

/-! ## Lemmas -/

theorem wrapsWith_wrap (phrase : String) (inner : Option GoError) :
    WrapsWith phrase inner (errors.Wrap inner phrase) := by
  cases inner with
  | none => exact ⟨by simp [errors.Wrap], by intro e h; cases h⟩
  | some e0 =>
    refine ⟨by simp [errors.Wrap], ?_⟩
    intro e h
    cases h
    exact ⟨.withMessage e0 phrase, rfl, rfl, rfl, rfl⟩

theorem loop_succ_done (retryable : GoError → Bool) (condition : ConditionFunc) (steps : Nat)
    (hist hist1 : List Call) (h : condition hist = (.returned (true, none), hist1)) :
    WaitForWithRetryable.loop retryable condition (steps + 1) hist = (.returned none, hist1) := by
  simp [WaitForWithRetryable.loop, h]

theorem loop_succ_wait (retryable : GoError → Bool) (condition : ConditionFunc) (steps : Nat)
    (hist hist1 : List Call) (h : condition hist = (.returned (false, none), hist1)) :
    WaitForWithRetryable.loop retryable condition (steps + 1) hist
      = WaitForWithRetryable.loop retryable condition steps hist1 := by
  simp [WaitForWithRetryable.loop, h]

theorem loop_succ_stop (retryable : GoError → Bool) (condition : ConditionFunc) (steps : Nat)
    (hist hist1 : List Call) (done : Bool) (e : GoError)
    (h : condition hist = (.returned (done, some e), hist1)) (hclass : retryable e = false) :
    WaitForWithRetryable.loop retryable condition (steps + 1) hist
      = (.returned (some e), hist1) := by
  simp [WaitForWithRetryable.loop, h, hclass]

theorem loop_succ_retry (retryable : GoError → Bool) (condition : ConditionFunc) (steps : Nat)
    (hist hist1 : List Call) (done : Bool) (e : GoError)
    (h : condition hist = (.returned (done, some e), hist1)) (hclass : retryable e = true) :
    WaitForWithRetryable.loop retryable condition (steps + 1) hist
      = WaitForWithRetryable.loop retryable condition steps hist1 := by
  simp [WaitForWithRetryable.loop, h, hclass]

theorem replicate_succ_append (hist : List Call) (call : Call) (i : Nat) :
    hist ++ List.replicate (i + 1) call = (hist ++ [call]) ++ List.replicate i call := by
  simp [List.replicate_succ]

theorem collectKeys_eq (tags : GoMap String) (keys : List (Option String)) :
    RemoveIdentityProviderTagsProcedure.collectKeys tags keys
      = keys ++ (GoMap.keys tags).map aws_String := by
  induction tags generalizing keys with
  | nil => simp [RemoveIdentityProviderTagsProcedure.collectKeys, GoMap.keys]
  | cons kv rest ih =>
    obtain ⟨k, v⟩ := kv
    simp [RemoveIdentityProviderTagsProcedure.collectKeys, ih, GoMap.keys]

theorem Wait_condition_error (w : WaitIdentityProviderAssociatedProcedure) (ctx : Context)
    (hist : List Call) (current : OidcIdentityProviderConfig) (e : GoError)
    (hcur : w.plan.currentIdentityProvider = some current)
    (hfail : w.plan.eksClient.DescribeIdentityProviderConfigWithContext hist ctx
      (describeInput w.plan.clusterName current.IdentityProviderConfigName) = .error e) :
    w.condition ctx hist = (.returned (false, some e),
      hist ++ [Call.DescribeIdentityProviderConfigWithContext ctx
        (describeInput w.plan.clusterName current.IdentityProviderConfigName)]) := by
  unfold describeInput at hfail
  simp only [WaitIdentityProviderAssociatedProcedure.condition, hcur, hfail, describeInput]

theorem Wait_condition_status (w : WaitIdentityProviderAssociatedProcedure) (ctx : Context)
    (hist : List Call) (current : OidcIdentityProviderConfig) (status : String)
    (hcur : w.plan.currentIdentityProvider = some current)
    (hs : describedStatus (w.plan.eksClient.DescribeIdentityProviderConfigWithContext hist ctx
      (describeInput w.plan.clusterName current.IdentityProviderConfigName)) = some status) :
    w.condition ctx hist = (.returned (decide (status = eks.ConfigStatusActive), none),
      hist ++ [Call.DescribeIdentityProviderConfigWithContext ctx
        (describeInput w.plan.clusterName current.IdentityProviderConfigName)]) := by
  unfold describeInput at hs
  simp only [WaitIdentityProviderAssociatedProcedure.condition, hcur, describeInput]
  rcases hans : w.plan.eksClient.DescribeIdentityProviderConfigWithContext hist ctx
    { ClusterName := aws_String w.plan.clusterName
      IdentityProviderConfig := some
        { Name := aws_String current.IdentityProviderConfigName, Type_ := oidcType } }
    with e | out
  · rw [hans] at hs
    simp [describedStatus] at hs
  · rw [hans] at hs
    rcases hcfg : out.IdentityProviderConfig with _ | config
    · simp [describedStatus, hcfg] at hs
    · rcases hoidc : config.Oidc with _ | oidc
      · simp [describedStatus, hcfg, hoidc] at hs
      · simp only [describedStatus, hcfg, hoidc, Option.some.injEq] at hs
        subst hs
        by_cases hact : aws_StringValue oidc.Status = eks.ConfigStatusActive
        · simp [hcfg, hoidc, hact]
        · simp [hcfg, hoidc, hact]

/-- After an answer on which the harness polls again, a run with budget left goes on from
the calls made so far. -/
theorem Wait_loop_pollsAgain (retryable : GoError → Bool)
    (w : WaitIdentityProviderAssociatedProcedure) (ctx : Context)
    (hist : List Call) (current : OidcIdentityProviderConfig) (steps : Nat)
    (hcur : w.plan.currentIdentityProvider = some current)
    (hagain : pollsAgain retryable (w.plan.eksClient.DescribeIdentityProviderConfigWithContext
      hist ctx (describeInput w.plan.clusterName current.IdentityProviderConfigName)) = true) :
    WaitForWithRetryable.loop retryable (w.condition ctx) (steps + 1) hist
      = WaitForWithRetryable.loop retryable (w.condition ctx) steps
          (hist ++ [Call.DescribeIdentityProviderConfigWithContext ctx
            (describeInput w.plan.clusterName current.IdentityProviderConfigName)]) := by
  rcases hans : w.plan.eksClient.DescribeIdentityProviderConfigWithContext hist ctx
    (describeInput w.plan.clusterName current.IdentityProviderConfigName) with e | out
  · rw [hans] at hagain
    simp only [pollsAgain] at hagain
    exact loop_succ_retry retryable _ steps hist _ false e
      (Wait_condition_error w ctx hist current e hcur hans) hagain
  · rw [hans] at hagain
    simp only [pollsAgain] at hagain
    rcases hst : describedStatus (Except.ok out : Except GoError _) with _ | status
    · rw [hst] at hagain
      simp at hagain
    · rw [hst] at hagain
      have hne : status ≠ eks.ConfigStatusActive := by simpa using hagain
      have hc := Wait_condition_status w ctx hist current status hcur (by rw [hans]; exact hst)
      rw [decide_eq_false hne] at hc
      exact loop_succ_wait retryable _ steps hist _ hc

/-- While the service keeps the harness polling for `n` polls, a run with more than `n`
polls of budget reaches poll `n + 1` with `n` Describe calls made. -/
theorem Wait_loop_skip (retryable : GoError → Bool)
    (w : WaitIdentityProviderAssociatedProcedure) (ctx : Context)
    (current : OidcIdentityProviderConfig)
    (hcur : w.plan.currentIdentityProvider = some current) (n : Nat) :
    ∀ (steps : Nat) (hist : List Call),
    (∀ i, i < n → pollsAgain retryable
      (w.plan.eksClient.DescribeIdentityProviderConfigWithContext
        (hist ++ List.replicate i (Call.DescribeIdentityProviderConfigWithContext ctx
          (describeInput w.plan.clusterName current.IdentityProviderConfigName))) ctx
        (describeInput w.plan.clusterName current.IdentityProviderConfigName)) = true) →
    WaitForWithRetryable.loop retryable (w.condition ctx) (n + steps) hist
      = WaitForWithRetryable.loop retryable (w.condition ctx) steps
          (hist ++ List.replicate n (Call.DescribeIdentityProviderConfigWithContext ctx
            (describeInput w.plan.clusterName current.IdentityProviderConfigName))) := by
  induction n with
  | zero => intro steps hist _; simp
  | succ m ih =>
    intro steps hist hbefore
    have h0 := hbefore 0 (Nat.succ_pos m)
    simp only [List.replicate_zero, List.append_nil] at h0
    have hstep : m + 1 + steps = (m + steps) + 1 := by omega
    rw [hstep, Wait_loop_pollsAgain retryable w ctx hist current (m + steps) hcur h0,
      replicate_succ_append]
    apply ih
    intro i hi
    have := hbefore (i + 1) (by omega)
    rw [replicate_succ_append] at this
    exact this

theorem Disassociate_condition_error (d : DisassociateIdentityProviderConfig) (ctx : Context)
    (hist : List Call) (current : OidcIdentityProviderConfig) (e : GoError)
    (hcur : d.plan.currentIdentityProvider = some current)
    (hfail : d.plan.eksClient.DisassociateIdentityProviderConfigWithContext hist ctx
      (disassociateInput d.plan.clusterName current.IdentityProviderConfigName) = .error e) :
    d.condition ctx hist = (.returned (false, some e),
      hist ++ [Call.DisassociateIdentityProviderConfigWithContext ctx
        (disassociateInput d.plan.clusterName current.IdentityProviderConfigName)]) := by
  unfold disassociateInput at hfail
  simp only [DisassociateIdentityProviderConfig.condition, hcur, hfail, disassociateInput]

theorem Disassociate_condition_ok (d : DisassociateIdentityProviderConfig) (ctx : Context)
    (hist : List Call) (current : OidcIdentityProviderConfig)
    (hcur : d.plan.currentIdentityProvider = some current)
    (hok : callError (d.plan.eksClient.DisassociateIdentityProviderConfigWithContext hist ctx
      (disassociateInput d.plan.clusterName current.IdentityProviderConfigName)) = none) :
    d.condition ctx hist = (.returned (true, none),
      hist ++ [Call.DisassociateIdentityProviderConfigWithContext ctx
        (disassociateInput d.plan.clusterName current.IdentityProviderConfigName)]) := by
  unfold disassociateInput at hok
  simp only [DisassociateIdentityProviderConfig.condition, hcur, disassociateInput]
  split
  · rename_i heq
    rw [heq] at hok
    simp [callError] at hok
  · rfl

theorem Disassociate_Do_trace (wait : Harness) (d : DisassociateIdentityProviderConfig)
    (ctx : Context) (hist : List Call) :
    (d.Do wait ctx hist).2 = (wait (d.condition ctx) hist).2 := by
  unfold DisassociateIdentityProviderConfig.Do
  split <;> simp_all

/-! ## C1: the keys RemoveTags sends -/

/-- C1, as stated, fails: with current tags {a:1, c:3} and desired tags {a:1} (both maps
well formed) `RemoveTags.Do` sends the keys a and c in one `UntagResource` call, and the key a
is not in the key set {c} the claim gives. -/
theorem RemoveTags_sends_key_kept_in_desired :
    GoMap.WellFormed [("a", "1"), ("c", "3")] ∧ GoMap.WellFormed [("a", "1")] ∧
    (RemoveIdentityProviderTagsProcedure.Do
        ⟨examplePlan 0 0 (some [("a", "1"), ("c", "3")]) (some [("a", "1")])⟩ exampleCtx []).2
      = [Call.UntagResource
          { ResourceArn := some "arn:aws:eks:identityproviderconfig/oidc/idp"
            TagKeys := [some "a", some "c"] }] ∧
    specRemoveKeys (exampleConfig [("a", "1"), ("c", "3")]) (some (exampleConfig [("a", "1")]))
      = ["c"] ∧
    ¬ (∀ k : String, aws_String k ∈ [some "a", some "c"] ↔
        k ∈ specRemoveKeys (exampleConfig [("a", "1"), ("c", "3")])
          (some (exampleConfig [("a", "1")]))) := by
  refine ⟨by decide, by decide, by decide, by decide, ?_⟩
  intro h
  have := (h "a").1 (by decide)
  revert this
  decide

/-- C1, amended: for every plan whose current config is present, `RemoveTags.Do` issues one
`UntagResource` call on the current config's ARN whose key list is the keys of the current
config's Tags, each once and in map order; the desired config is not read. -/
theorem RemoveTags_sends_all_current_keys (r : RemoveIdentityProviderTagsProcedure)
    (ctx : Context) (hist : List Call) (current : OidcIdentityProviderConfig)
    (hcur : r.plan.currentIdentityProvider = some current) :
    ∃ input : eks.UntagResourceInput,
      (r.Do ctx hist).2 = hist ++ [Call.UntagResource input] ∧
      input.ResourceArn = current.IdentityProviderConfigArn ∧
      input.TagKeys = (GoMap.keys current.Tags).map aws_String ∧
      ∀ k : String, aws_String k ∈ input.TagKeys ↔ k ∈ GoMap.keys current.Tags := by
  refine ⟨{ ResourceArn := current.IdentityProviderConfigArn
            TagKeys := (GoMap.keys current.Tags).map aws_String }, ?_, rfl, rfl, ?_⟩
  · simp only [RemoveIdentityProviderTagsProcedure.Do, hcur, collectKeys_eq, List.nil_append]
    split <;> rfl
  · intro k
    simp [aws_String]

/-- Witness of `RemoveTags_sends_all_current_keys` at current tags {a:1, c:3} and desired
tags {a:1}. -/
theorem RemoveTags_sends_all_current_keys_witness :
    ∃ input : eks.UntagResourceInput,
      (RemoveIdentityProviderTagsProcedure.Do
          ⟨examplePlan 0 0 (some [("a", "1"), ("c", "3")]) (some [("a", "1")])⟩ exampleCtx []).2
        = [] ++ [Call.UntagResource input] ∧
      input.ResourceArn = (exampleConfig [("a", "1"), ("c", "3")]).IdentityProviderConfigArn ∧
      input.TagKeys = (GoMap.keys (exampleConfig [("a", "1"), ("c", "3")]).Tags).map aws_String ∧
      ∀ k : String, aws_String k ∈ input.TagKeys ↔
        k ∈ GoMap.keys (exampleConfig [("a", "1"), ("c", "3")]).Tags :=
  RemoveTags_sends_all_current_keys
    ⟨examplePlan 0 0 (some [("a", "1"), ("c", "3")]) (some [("a", "1")])⟩ exampleCtx []
    (exampleConfig [("a", "1"), ("c", "3")]) rfl

/-! ## C2: the tags UpdateTags sends -/

/-- C2, as stated, fails: with current tags {a:1} and desired tags {a:1, b:2} (both maps well
formed) `UpdateTags.Do` sends the entries a:1 and b:2 in one `TagResource` call, although the
key a has the same value in current and desired; the claim gives the map {b:2}. -/
theorem UpdateTags_sends_unchanged_entry :
    GoMap.WellFormed [("a", "1")] ∧ GoMap.WellFormed [("a", "1"), ("b", "2")] ∧
    (UpdatedIdentityProviderTagsProcedure.Do
        ⟨examplePlan 0 0 (some [("a", "1")]) (some [("a", "1"), ("b", "2")])⟩ exampleCtx []).2
      = [Call.TagResource
          { ResourceArn := some "arn:aws:eks:identityproviderconfig/oidc/idp"
            Tags := some [("a", some "1"), ("b", some "2")] }] ∧
    specUpdateTags (exampleConfig [("a", "1")]) (exampleConfig [("a", "1"), ("b", "2")])
      = [("b", "2")] ∧
    ¬ (∀ (k v : String), (k, aws_String v) ∈ [("a", some "1"), ("b", some "2")] ↔
        (k, v) ∈ specUpdateTags (exampleConfig [("a", "1")])
          (exampleConfig [("a", "1"), ("b", "2")])) := by
  refine ⟨by decide, by decide, by decide, by decide, ?_⟩
  intro h
  have := (h "a" "1").1 (by decide)
  revert this
  decide

/-- C2, amended: for every plan with current and desired configs both present,
`UpdateTags.Do` issues one `TagResource` call on the current config's ARN whose tag map is
the whole of the desired config's Tags: every desired entry is sent, whether or not the
current Tags hold the same value for its key. -/
theorem UpdateTags_sends_all_desired_tags (u : UpdatedIdentityProviderTagsProcedure)
    (ctx : Context) (hist : List Call) (current desired : OidcIdentityProviderConfig)
    (hcur : u.plan.currentIdentityProvider = some current)
    (hdes : u.plan.desiredIdentityProvider = some desired) :
    ∃ sent : GoMap (Option String),
      (u.Do ctx hist).2 = hist ++ [Call.TagResource
        { ResourceArn := current.IdentityProviderConfigArn, Tags := some sent }] ∧
      GoMap.keys sent = GoMap.keys desired.Tags ∧
      ∀ (k v : String), (k, aws_String v) ∈ sent ↔ (k, v) ∈ desired.Tags := by
  refine ⟨aws_StringMap desired.Tags, ?_, ?_, ?_⟩
  · simp only [UpdatedIdentityProviderTagsProcedure.Do, hcur, hdes]
    split <;> rfl
  · simp [aws_StringMap, GoMap.keys, List.map_map, Function.comp_def]
  · intro k v
    simp only [aws_StringMap, aws_String, List.mem_map, Prod.mk.injEq, Prod.exists]
    constructor
    · rintro ⟨k1, v1, hmem, rfl, hv⟩
      cases hv
      exact hmem
    · intro hmem
      exact ⟨k, v, hmem, rfl, rfl⟩

/-- Witness of `UpdateTags_sends_all_desired_tags` at current tags {a:1} and desired tags
{a:1, b:2}. -/
theorem UpdateTags_sends_all_desired_tags_witness :
    ∃ sent : GoMap (Option String),
      (UpdatedIdentityProviderTagsProcedure.Do
          ⟨examplePlan 0 0 (some [("a", "1")]) (some [("a", "1"), ("b", "2")])⟩ exampleCtx []).2
        = [] ++ [Call.TagResource
          { ResourceArn := (exampleConfig [("a", "1")]).IdentityProviderConfigArn
            Tags := some sent }] ∧
      GoMap.keys sent = GoMap.keys (exampleConfig [("a", "1"), ("b", "2")]).Tags ∧
      ∀ (k v : String), (k, aws_String v) ∈ sent ↔
        (k, v) ∈ (exampleConfig [("a", "1"), ("b", "2")]).Tags :=
  UpdateTags_sends_all_desired_tags
    ⟨examplePlan 0 0 (some [("a", "1")]) (some [("a", "1"), ("b", "2")])⟩ exampleCtx []
    (exampleConfig [("a", "1")]) (exampleConfig [("a", "1"), ("b", "2")]) rfl rfl

/-! ## C9: the request Associate sends -/

/-- C9: for every plan with a desired config `D`, `Associate.Do` issues one Associate call
whose request has the plan's cluster name, has client ID, issuer URL, config name, groups
claim, groups prefix, username claim, username prefix and required claims equal to the
fields of `D`, and whose tags are `D`'s Tags when `D` has at least one tag and are left
unset when `D` has none. -/
theorem Associate_request_from_desired (a : AssociateIdentityProviderProcedure)
    (ctx : Context) (hist : List Call) (D : OidcIdentityProviderConfig)
    (hdes : a.plan.desiredIdentityProvider = some D) :
    ∃ (input : eks.AssociateIdentityProviderConfigInput)
      (oidc : eks.OidcIdentityProviderConfigRequest),
      (a.Do ctx hist).2 = hist ++ [Call.AssociateIdentityProviderConfigWithContext ctx input] ∧
      input.ClusterName = some a.plan.clusterName ∧
      input.Oidc = some oidc ∧
      oidc.ClientId = some D.ClientID ∧
      oidc.IssuerUrl = some D.IssuerURL ∧
      oidc.IdentityProviderConfigName = some D.IdentityProviderConfigName ∧
      oidc.GroupsClaim = D.GroupsClaim ∧
      oidc.GroupsPrefix = D.GroupsPrefix ∧
      oidc.UsernameClaim = D.UsernameClaim ∧
      oidc.UsernamePrefix = D.UsernamePrefix ∧
      oidc.RequiredClaims = D.RequiredClaims ∧
      (0 < GoMap.len D.Tags →
        input.Tags = some (D.Tags.map fun kv => (kv.1, some kv.2))) ∧
      (GoMap.len D.Tags = 0 → input.Tags = none) := by
  refine ⟨AssociateIdentityProviderProcedure.input a.plan.clusterName D,
    { ClientId := aws_String D.ClientID
      GroupsClaim := D.GroupsClaim
      GroupsPrefix := D.GroupsPrefix
      IdentityProviderConfigName := aws_String D.IdentityProviderConfigName
      IssuerUrl := aws_String D.IssuerURL
      RequiredClaims := D.RequiredClaims
      UsernameClaim := D.UsernameClaim
      UsernamePrefix := D.UsernamePrefix }, ?_, ?_, ?_, rfl, rfl, rfl, rfl, rfl, rfl, rfl, rfl,
    ?_, ?_⟩
  · simp only [AssociateIdentityProviderProcedure.Do, hdes]
    split <;> rfl
  · unfold AssociateIdentityProviderProcedure.input
    split <;> rfl
  · unfold AssociateIdentityProviderProcedure.input
    split <;> rfl
  · intro hpos
    unfold AssociateIdentityProviderProcedure.input
    rw [if_pos hpos]
    rfl
  · intro hzero
    unfold AssociateIdentityProviderProcedure.input
    rw [if_neg (by omega)]

/-- Witness of `Associate_request_from_desired` at a desired config with the tag env:prod. -/
theorem Associate_request_from_desired_witness :
    ∃ (input : eks.AssociateIdentityProviderConfigInput)
      (oidc : eks.OidcIdentityProviderConfigRequest),
      (AssociateIdentityProviderProcedure.Do
          ⟨examplePlan 0 0 none (some [("env", "prod")])⟩ exampleCtx []).2
        = [] ++ [Call.AssociateIdentityProviderConfigWithContext exampleCtx input] ∧
      input.ClusterName = some "c1" ∧
      input.Oidc = some oidc ∧
      oidc.ClientId = some "abc" ∧
      oidc.IssuerUrl = some "https://issuer" ∧
      oidc.IdentityProviderConfigName = some "idp" ∧
      oidc.GroupsClaim = some "groups" ∧
      oidc.GroupsPrefix = none ∧
      oidc.UsernameClaim = some "email" ∧
      oidc.UsernamePrefix = none ∧
      oidc.RequiredClaims = [] ∧
      (0 < GoMap.len [("env", "prod")] →
        input.Tags = some ([("env", "prod")].map fun kv => (kv.1, some kv.2))) ∧
      (GoMap.len [("env", "prod")] = 0 → input.Tags = none) :=
  Associate_request_from_desired ⟨examplePlan 0 0 none (some [("env", "prod")])⟩ exampleCtx []
    (exampleConfig [("env", "prod")]) rfl

/-! ## C6: polling until the status is ACTIVE -/

/-- C6: for every plan with a current config and every `n` below the budget of the harness,
if Describe answers the first `n` polls with a status other than `ACTIVE` and poll `n + 1`
with the status `ACTIVE`, then `WaitAssociated.Do` returns nil and the calls it made are
exactly `n + 1` Describe calls. -/
theorem WaitAssociated_succeeds_after_pending_polls (backoff : Backoff)
    (w : WaitIdentityProviderAssociatedProcedure) (ctx : Context) (hist : List Call)
    (current : OidcIdentityProviderConfig) (n : Nat)
    (hcur : w.plan.currentIdentityProvider = some current)
    (hn : n < backoff.Steps)
    (hpending : ∀ i, i < n → ∃ status,
      describedStatus (w.plan.eksClient.DescribeIdentityProviderConfigWithContext
        (hist ++ List.replicate i (Call.DescribeIdentityProviderConfigWithContext ctx
          (describeInput w.plan.clusterName current.IdentityProviderConfigName))) ctx
        (describeInput w.plan.clusterName current.IdentityProviderConfigName)) = some status ∧
      status ≠ eks.ConfigStatusActive)
    (hactive : describedStatus (w.plan.eksClient.DescribeIdentityProviderConfigWithContext
        (hist ++ List.replicate n (Call.DescribeIdentityProviderConfigWithContext ctx
          (describeInput w.plan.clusterName current.IdentityProviderConfigName))) ctx
        (describeInput w.plan.clusterName current.IdentityProviderConfigName))
      = some eks.ConfigStatusActive) :
    w.Do (WaitForWithRetryable backoff) ctx hist
      = (.returned none,
          hist ++ List.replicate (n + 1) (Call.DescribeIdentityProviderConfigWithContext ctx
            (describeInput w.plan.clusterName current.IdentityProviderConfigName))) := by
  obtain ⟨k, hk⟩ : ∃ k, backoff.Steps = n + (k + 1) := ⟨backoff.Steps - n - 1, by omega⟩
  have hskip := Wait_loop_skip backoff.retryable w ctx current hcur n (k + 1) hist (by
    intro i hi
    obtain ⟨status, hst, hne⟩ := hpending i hi
    rcases hans : w.plan.eksClient.DescribeIdentityProviderConfigWithContext
      (hist ++ List.replicate i (Call.DescribeIdentityProviderConfigWithContext ctx
        (describeInput w.plan.clusterName current.IdentityProviderConfigName))) ctx
      (describeInput w.plan.clusterName current.IdentityProviderConfigName) with e | out
    · rw [hans] at hst
      simp [describedStatus] at hst
    · rw [hans] at hst
      simp only [pollsAgain, hst]
      exact decide_eq_true hne)
  have hc := Wait_condition_status w ctx _ current _ hcur hactive
  rw [decide_eq_true rfl] at hc
  have hdone := loop_succ_done backoff.retryable (w.condition ctx) k _ _ hc
  simp only [WaitIdentityProviderAssociatedProcedure.Do, WaitForWithRetryable, hk, hskip, hdone]
  simp [List.replicate_succ', List.append_assoc]

/-- Witness of `WaitAssociated_succeeds_after_pending_polls` at `n = 3` with a budget of nine
polls: three polls see `CREATING`, the fourth sees `ACTIVE`, four Describe calls are made. -/
theorem WaitAssociated_succeeds_after_pending_polls_witness :
    WaitIdentityProviderAssociatedProcedure.Do (WaitForWithRetryable exampleBackoff)
        ⟨examplePlan 0 3 (some []) none⟩ exampleCtx []
      = (.returned none,
          [] ++ List.replicate (3 + 1) (Call.DescribeIdentityProviderConfigWithContext exampleCtx
            (describeInput "c1" "idp"))) :=
  WaitAssociated_succeeds_after_pending_polls exampleBackoff
    ⟨examplePlan 0 3 (some []) none⟩ exampleCtx [] (exampleConfig []) 3 rfl (by decide)
    (by
      intro i hi
      refine ⟨"CREATING", ?_, by decide⟩
      interval_cases i <;> rfl)
    rfl

/-! ## C7: a Describe call that fails -/

/-- C7: for every plan (holding the current config the poll reads), if the Describe call of
poll `n + 1`, reached within the budget after `n` polls that saw a status other than
`ACTIVE`, fails with error `e`, then the poll reports (not done, `e`) to the harness with `e`
unchanged, `WaitAssociated.Do` makes no Describe call after the failing one, and `Do` returns
`e` wrapped with the phrase of the procedure, an error whose cause is the cause of `e`, not
the timeout error of the harness. -/
theorem WaitAssociated_describe_error (steps : Nat)
    (w : WaitIdentityProviderAssociatedProcedure) (ctx : Context) (hist : List Call)
    (current : OidcIdentityProviderConfig) (n : Nat) (e : GoError)
    (hcur : w.plan.currentIdentityProvider = some current)
    (hn : n < steps)
    (hpending : ∀ i, i < n → ∃ status,
      describedStatus (w.plan.eksClient.DescribeIdentityProviderConfigWithContext
        (hist ++ List.replicate i (Call.DescribeIdentityProviderConfigWithContext ctx
          (describeInput w.plan.clusterName current.IdentityProviderConfigName))) ctx
        (describeInput w.plan.clusterName current.IdentityProviderConfigName)) = some status ∧
      status ≠ eks.ConfigStatusActive)
    (hfail : w.plan.eksClient.DescribeIdentityProviderConfigWithContext
        (hist ++ List.replicate n (Call.DescribeIdentityProviderConfigWithContext ctx
          (describeInput w.plan.clusterName current.IdentityProviderConfigName))) ctx
        (describeInput w.plan.clusterName current.IdentityProviderConfigName) = .error e) :
    w.condition ctx (hist ++ List.replicate n (Call.DescribeIdentityProviderConfigWithContext ctx
        (describeInput w.plan.clusterName current.IdentityProviderConfigName)))
      = (.returned (false, some e),
          hist ++ List.replicate (n + 1) (Call.DescribeIdentityProviderConfigWithContext ctx
            (describeInput w.plan.clusterName current.IdentityProviderConfigName))) ∧
    w.Do (WaitForWithRetryable.withoutCodes steps) ctx hist
      = (.returned (some (.withMessage e
          "failed waiting for identity provider association to be ready")),
        hist ++ List.replicate (n + 1) (Call.DescribeIdentityProviderConfigWithContext ctx
          (describeInput w.plan.clusterName current.IdentityProviderConfigName))) ∧
    errors.Cause (.withMessage e "failed waiting for identity provider association to be ready")
      = errors.Cause e ∧
    GoError.Error (.withMessage e "failed waiting for identity provider association to be ready")
      = "failed waiting for identity provider association to be ready" ++ ": " ++ e.Error := by
  obtain ⟨k, hk⟩ : ∃ k, steps = n + (k + 1) := ⟨steps - n - 1, by omega⟩
  have hskip := Wait_loop_skip (fun _ => false) w ctx current hcur n (k + 1) hist (by
    intro i hi
    obtain ⟨status, hst, hne⟩ := hpending i hi
    rcases hans : w.plan.eksClient.DescribeIdentityProviderConfigWithContext
      (hist ++ List.replicate i (Call.DescribeIdentityProviderConfigWithContext ctx
        (describeInput w.plan.clusterName current.IdentityProviderConfigName))) ctx
      (describeInput w.plan.clusterName current.IdentityProviderConfigName) with e1 | out
    · rw [hans] at hst
      simp [describedStatus] at hst
    · rw [hans] at hst
      simp only [pollsAgain, hst]
      exact decide_eq_true hne)
  have hc := Wait_condition_error w ctx _ current e hcur hfail
  have happ : (hist ++ List.replicate n (Call.DescribeIdentityProviderConfigWithContext
      ctx (describeInput w.plan.clusterName current.IdentityProviderConfigName))) ++
      [Call.DescribeIdentityProviderConfigWithContext ctx
        (describeInput w.plan.clusterName current.IdentityProviderConfigName)]
      = hist ++ List.replicate (n + 1) (Call.DescribeIdentityProviderConfigWithContext ctx
        (describeInput w.plan.clusterName current.IdentityProviderConfigName)) := by
    simp [List.replicate_succ', List.append_assoc]
  rw [happ] at hc
  refine ⟨hc, ?_, rfl, rfl⟩
  have hstop := loop_succ_stop (fun _ => false) (w.condition ctx) k _ _ false e hc rfl
  simp only [WaitIdentityProviderAssociatedProcedure.Do, WaitForWithRetryable.withoutCodes,
    WaitForWithRetryable, hk, hskip, hstop, errors.Wrap]

/-- Witness of `WaitAssociated_describe_error`: one poll sees `CREATING`, the Describe call
of the second poll fails with `transientError`, the budget is nine polls; `Do` returns the
error wrapped after two Describe calls. -/
theorem WaitAssociated_describe_error_witness :
    WaitIdentityProviderAssociatedProcedure.condition ⟨failingLaterPlan 1⟩ exampleCtx
        ([] ++ List.replicate 1
          (Call.DescribeIdentityProviderConfigWithContext exampleCtx (describeInput "c1" "idp")))
      = (.returned (false, some transientError),
          [] ++ List.replicate (1 + 1)
            (Call.DescribeIdentityProviderConfigWithContext exampleCtx
              (describeInput "c1" "idp"))) ∧
    WaitIdentityProviderAssociatedProcedure.Do (WaitForWithRetryable.withoutCodes 9)
        ⟨failingLaterPlan 1⟩ exampleCtx []
      = (.returned (some (.withMessage transientError
          "failed waiting for identity provider association to be ready")),
        [] ++ List.replicate (1 + 1)
          (Call.DescribeIdentityProviderConfigWithContext exampleCtx
            (describeInput "c1" "idp"))) ∧
    errors.Cause (.withMessage transientError
        "failed waiting for identity provider association to be ready")
      = errors.Cause transientError ∧
    GoError.Error (.withMessage transientError
        "failed waiting for identity provider association to be ready")
      = "failed waiting for identity provider association to be ready" ++ ": " ++
          transientError.Error :=
  WaitAssociated_describe_error 9 ⟨failingLaterPlan 1⟩ exampleCtx
    [] (exampleConfig []) 1 transientError rfl (by decide)
    (by
      intro i hi
      refine ⟨"CREATING", ?_, by decide⟩
      interval_cases i
      rfl)
    rfl

/-! ## C4: how many mutation calls one `Do` issues -/

/-- C4, as stated, fails: it speaks of every plan, and on a plan that lacks the config a
procedure reads, `Do` of that procedure panics on the nil dereference before it issues any
remote call. With the desired config absent that is Associate and UpdateTags, with the
current config absent it is Disassociate, UpdateTags and RemoveTags: no call is made. -/
theorem Do_panics_before_call_without_config :
    AssociateIdentityProviderProcedure.Do ⟨examplePlan 0 0 (some []) none⟩ exampleCtx []
      = (.panicked, []) ∧
    UpdatedIdentityProviderTagsProcedure.Do ⟨examplePlan 0 0 (some []) none⟩ exampleCtx []
      = (.panicked, []) ∧
    DisassociateIdentityProviderConfig.Do (WaitForWithRetryable.withoutCodes 9)
        ⟨examplePlan 0 0 none (some [])⟩ exampleCtx []
      = (.panicked, []) ∧
    UpdatedIdentityProviderTagsProcedure.Do ⟨examplePlan 0 0 none (some [])⟩ exampleCtx []
      = (.panicked, []) ∧
    RemoveIdentityProviderTagsProcedure.Do ⟨examplePlan 0 0 none (some [])⟩ exampleCtx []
      = (.panicked, []) ∧
    ((AssociateIdentityProviderProcedure.Do ⟨examplePlan 0 0 (some []) none⟩
        exampleCtx []).2.filter Call.isMutation).length = 0 := by
  refine ⟨by decide, by decide, by decide, by decide, by decide, by decide⟩

/-- C4, amended: for every plan that holds the configs the procedure reads (desired for
Associate, current and desired for UpdateTags, current for RemoveTags and Disassociate) and
every behaviour of the remote gateway, also one whose mutation call fails, a single `Do` of
Associate, Disassociate, UpdateTags or RemoveTags issues exactly one remote call, a
mutation; `Disassociate.Do`, which runs its call inside the harness (with a budget of at
least one poll), does not issue the Disassociate call a second time after a failure. -/
theorem Do_issues_one_mutation_call (steps : Nat) (p : plan) (ctx : Context)
    (hist : List Call) :
    (∀ desired, p.desiredIdentityProvider = some desired →
      ∃ call, (AssociateIdentityProviderProcedure.Do ⟨p⟩ ctx hist).2 = hist ++ [call] ∧
        call = Call.AssociateIdentityProviderConfigWithContext ctx
          (AssociateIdentityProviderProcedure.input p.clusterName desired) ∧
        call.isMutation = true) ∧
    (∀ current desired, p.currentIdentityProvider = some current →
      p.desiredIdentityProvider = some desired →
      ∃ call, (UpdatedIdentityProviderTagsProcedure.Do ⟨p⟩ ctx hist).2 = hist ++ [call] ∧
        call = Call.TagResource { ResourceArn := current.IdentityProviderConfigArn
                                  Tags := some (aws_StringMap desired.Tags) } ∧
        call.isMutation = true) ∧
    (∀ current, p.currentIdentityProvider = some current →
      ∃ call, (RemoveIdentityProviderTagsProcedure.Do ⟨p⟩ ctx hist).2 = hist ++ [call] ∧
        call = Call.UntagResource { ResourceArn := current.IdentityProviderConfigArn
                                    TagKeys := (GoMap.keys current.Tags).map aws_String } ∧
        call.isMutation = true) ∧
    (∀ current, p.currentIdentityProvider = some current → 0 < steps →
      ∃ call, (DisassociateIdentityProviderConfig.Do (WaitForWithRetryable.withoutCodes steps)
          ⟨p⟩ ctx hist).2 = hist ++ [call] ∧
        call = Call.DisassociateIdentityProviderConfigWithContext ctx
          (disassociateInput p.clusterName current.IdentityProviderConfigName) ∧
        call.isMutation = true) := by
  refine ⟨?_, ?_, ?_, ?_⟩
  · intro desired hdes
    refine ⟨_, ?_, rfl, rfl⟩
    simp only [AssociateIdentityProviderProcedure.Do, hdes]
    split <;> rfl
  · intro current desired hcur hdes
    refine ⟨_, ?_, rfl, rfl⟩
    simp only [UpdatedIdentityProviderTagsProcedure.Do, hcur, hdes]
    split <;> rfl
  · intro current hcur
    refine ⟨_, ?_, rfl, rfl⟩
    simp only [RemoveIdentityProviderTagsProcedure.Do, hcur, collectKeys_eq, List.nil_append]
    split <;> rfl
  · intro current hcur hsteps
    refine ⟨_, ?_, rfl, rfl⟩
    obtain ⟨k, hk⟩ : ∃ k, steps = k + 1 := ⟨steps - 1, by omega⟩
    rw [Disassociate_Do_trace]
    simp only [WaitForWithRetryable.withoutCodes, WaitForWithRetryable, hk]
    rcases hans : p.eksClient.DisassociateIdentityProviderConfigWithContext hist ctx
      (disassociateInput p.clusterName current.IdentityProviderConfigName) with e | u
    · rw [loop_succ_stop (fun _ => false) _ k hist _ false e
        (Disassociate_condition_error ⟨p⟩ ctx hist current e hcur hans) rfl]
    · rw [loop_succ_done (fun _ => false) _ k hist _
        (Disassociate_condition_ok ⟨p⟩ ctx hist current hcur (by
          show callError (p.eksClient.DisassociateIdentityProviderConfigWithContext hist ctx
            (disassociateInput p.clusterName current.IdentityProviderConfigName)) = none
          rw [hans]; rfl))]

/-- Witness of `Do_issues_one_mutation_call` on a plan with both configs whose service fails
the first call with `transientError` where it can: one call each for Associate, UpdateTags
and RemoveTags, and one Disassociate call, which fails and is not issued again. -/
theorem Do_issues_one_mutation_call_witness :
    (∃ call, (AssociateIdentityProviderProcedure.Do
        ⟨examplePlan 1 0 (some [("a", "1")]) (some [("b", "2")])⟩ exampleCtx []).2 = [] ++ [call] ∧
      call = Call.AssociateIdentityProviderConfigWithContext exampleCtx
        (AssociateIdentityProviderProcedure.input "c1" (exampleConfig [("b", "2")])) ∧
      call.isMutation = true) ∧
    (∃ call, (UpdatedIdentityProviderTagsProcedure.Do
        ⟨examplePlan 1 0 (some [("a", "1")]) (some [("b", "2")])⟩ exampleCtx []).2 = [] ++ [call] ∧
      call = Call.TagResource
        { ResourceArn := (exampleConfig [("a", "1")]).IdentityProviderConfigArn
          Tags := some (aws_StringMap (exampleConfig [("b", "2")]).Tags) } ∧
      call.isMutation = true) ∧
    (∃ call, (RemoveIdentityProviderTagsProcedure.Do
        ⟨examplePlan 1 0 (some [("a", "1")]) (some [("b", "2")])⟩ exampleCtx []).2 = [] ++ [call] ∧
      call = Call.UntagResource
        { ResourceArn := (exampleConfig [("a", "1")]).IdentityProviderConfigArn
          TagKeys := (GoMap.keys (exampleConfig [("a", "1")]).Tags).map aws_String } ∧
      call.isMutation = true) ∧
    (∃ call, (DisassociateIdentityProviderConfig.Do (WaitForWithRetryable.withoutCodes 9)
        ⟨examplePlan 1 0 (some [("a", "1")]) (some [("b", "2")])⟩ exampleCtx []).2 = [] ++ [call] ∧
      call = Call.DisassociateIdentityProviderConfigWithContext exampleCtx
        (disassociateInput "c1" (exampleConfig [("a", "1")]).IdentityProviderConfigName) ∧
      call.isMutation = true) ∧
    (examplePlan 1 0 (some [("a", "1")]) (some [("b", "2")])).eksClient.DisassociateIdentityProviderConfigWithContext
        [] exampleCtx (disassociateInput "c1" "idp") = .error transientError :=
  ⟨(Do_issues_one_mutation_call 9
      (examplePlan 1 0 (some [("a", "1")]) (some [("b", "2")])) exampleCtx []).1 _ rfl,
   (Do_issues_one_mutation_call 9
      (examplePlan 1 0 (some [("a", "1")]) (some [("b", "2")])) exampleCtx []).2.1 _ _ rfl rfl,
   (Do_issues_one_mutation_call 9
      (examplePlan 1 0 (some [("a", "1")]) (some [("b", "2")])) exampleCtx []).2.2.1 _ rfl,
   (Do_issues_one_mutation_call 9
      (examplePlan 1 0 (some [("a", "1")]) (some [("b", "2")])) exampleCtx []).2.2.2 _ rfl
      (by decide),
   rfl⟩

/-! ## C3: Associate, then WaitAssociated -/

/-- C3, as stated, fails: on a plan with no current config and a desired config, against a
service that accepts the association and describes the status `ACTIVE`, `Associate.Do`
returns nil, and the poll of `WaitAssociated.Do` then reads the config name through the
absent current config: it panics before any Describe call, and so does `Do`. -/
theorem WaitAssociated_panics_without_current :
    (examplePlan 0 0 none (some [])).currentIdentityProvider = none ∧
    AssociateIdentityProviderProcedure.Do ⟨examplePlan 0 0 none (some [])⟩ exampleCtx []
      = (.returned none, [Call.AssociateIdentityProviderConfigWithContext exampleCtx
          (AssociateIdentityProviderProcedure.input "c1" (exampleConfig []))]) ∧
    describedStatus ((examplePlan 0 0 none (some [])).eksClient.DescribeIdentityProviderConfigWithContext
        [Call.AssociateIdentityProviderConfigWithContext exampleCtx
          (AssociateIdentityProviderProcedure.input "c1" (exampleConfig []))]
        exampleCtx (describeInput "c1" "idp")) = some eks.ConfigStatusActive ∧
    WaitIdentityProviderAssociatedProcedure.condition ⟨examplePlan 0 0 none (some [])⟩ exampleCtx
        [Call.AssociateIdentityProviderConfigWithContext exampleCtx
          (AssociateIdentityProviderProcedure.input "c1" (exampleConfig []))]
      = (.panicked, [Call.AssociateIdentityProviderConfigWithContext exampleCtx
          (AssociateIdentityProviderProcedure.input "c1" (exampleConfig []))]) ∧
    WaitIdentityProviderAssociatedProcedure.Do (WaitForWithRetryable exampleBackoff)
        ⟨examplePlan 0 0 none (some [])⟩ exampleCtx
        [Call.AssociateIdentityProviderConfigWithContext exampleCtx
          (AssociateIdentityProviderProcedure.input "c1" (exampleConfig []))]
      = (.panicked, [Call.AssociateIdentityProviderConfigWithContext exampleCtx
          (AssociateIdentityProviderProcedure.input "c1" (exampleConfig []))]) := by
  refine ⟨rfl, by decide, by decide, by decide, by decide⟩

/-- C3, amended: for every plan whose current and desired configs are both present, running
`Associate.Do` and then `WaitAssociated.Do` (with a budget of at least one poll) against a
gateway that accepts the association and then describes the status `ACTIVE` returns no
error; the Describe request of `WaitAssociated.Do` carries the plan's cluster name and the
`IdentityProviderConfigName` read from the current config. -/
theorem Associate_then_WaitAssociated_with_current (backoff : Backoff) (p : plan)
    (ctx : Context) (hist : List Call) (current desired : OidcIdentityProviderConfig)
    (hcur : p.currentIdentityProvider = some current)
    (hdes : p.desiredIdentityProvider = some desired)
    (hsteps : 0 < backoff.Steps)
    (haccept : callError (p.eksClient.AssociateIdentityProviderConfigWithContext hist ctx
      (AssociateIdentityProviderProcedure.input p.clusterName desired)) = none)
    (hactive : describedStatus (p.eksClient.DescribeIdentityProviderConfigWithContext
      (hist ++ [Call.AssociateIdentityProviderConfigWithContext ctx
        (AssociateIdentityProviderProcedure.input p.clusterName desired)]) ctx
      (describeInput p.clusterName current.IdentityProviderConfigName))
      = some eks.ConfigStatusActive) :
    AssociateIdentityProviderProcedure.Do ⟨p⟩ ctx hist
      = (.returned none, hist ++ [Call.AssociateIdentityProviderConfigWithContext ctx
          (AssociateIdentityProviderProcedure.input p.clusterName desired)]) ∧
    WaitIdentityProviderAssociatedProcedure.Do (WaitForWithRetryable backoff) ⟨p⟩ ctx
        (hist ++ [Call.AssociateIdentityProviderConfigWithContext ctx
          (AssociateIdentityProviderProcedure.input p.clusterName desired)])
      = (.returned none, hist ++ [Call.AssociateIdentityProviderConfigWithContext ctx
          (AssociateIdentityProviderProcedure.input p.clusterName desired)] ++
          [Call.DescribeIdentityProviderConfigWithContext ctx
            { ClusterName := some p.clusterName
              IdentityProviderConfig := some
                { Name := some current.IdentityProviderConfigName, Type_ := some "oidc" } }]) := by
  constructor
  · simp only [AssociateIdentityProviderProcedure.Do, hdes]
    split
    · rename_i e heq
      rw [heq] at haccept
      simp [callError] at haccept
    · rfl
  · obtain ⟨k, hk⟩ : ∃ k, backoff.Steps = k + 1 := ⟨backoff.Steps - 1, by omega⟩
    have hc := Wait_condition_status ⟨p⟩ ctx _ current _ hcur hactive
    rw [decide_eq_true rfl] at hc
    have hdone := loop_succ_done backoff.retryable
      (WaitIdentityProviderAssociatedProcedure.condition ⟨p⟩ ctx) k _ _ hc
    simp only [WaitIdentityProviderAssociatedProcedure.Do, WaitForWithRetryable, hk, hdone]
    rfl

/-- Witness of `Associate_then_WaitAssociated_with_current` on a plan with both configs and
a service that accepts the association and describes `ACTIVE`. -/
theorem Associate_then_WaitAssociated_with_current_witness :
    AssociateIdentityProviderProcedure.Do ⟨examplePlan 0 0 (some []) (some [])⟩ exampleCtx []
      = (.returned none, [] ++ [Call.AssociateIdentityProviderConfigWithContext exampleCtx
          (AssociateIdentityProviderProcedure.input "c1" (exampleConfig []))]) ∧
    WaitIdentityProviderAssociatedProcedure.Do (WaitForWithRetryable exampleBackoff)
        ⟨examplePlan 0 0 (some []) (some [])⟩ exampleCtx
        ([] ++ [Call.AssociateIdentityProviderConfigWithContext exampleCtx
          (AssociateIdentityProviderProcedure.input "c1" (exampleConfig []))])
      = (.returned none, [] ++ [Call.AssociateIdentityProviderConfigWithContext exampleCtx
          (AssociateIdentityProviderProcedure.input "c1" (exampleConfig []))] ++
          [Call.DescribeIdentityProviderConfigWithContext exampleCtx
            { ClusterName := some "c1"
              IdentityProviderConfig := some
                { Name := some "idp", Type_ := some "oidc" } }]) :=
  Associate_then_WaitAssociated_with_current exampleBackoff
    (examplePlan 0 0 (some []) (some [])) exampleCtx [] (exampleConfig []) (exampleConfig [])
    rfl rfl (by decide) rfl rfl

/-! ## C5: the error a `Do` returns -/

/-- C5: for each of the five procedures, `Do` returns nil exactly when its remote call (for
WaitAssociated and Disassociate: its harness run, whatever the harness) ends without error,
and when that ends with an error `e`, `Do` returns an error with `e` as its cause whose
message is the phrase of the procedure, `": "`, and the message of `e`; the phrase of
Associate is "failed associating identity provider". The one-shot procedures are taken on
plans that hold the configs they read. -/
theorem Do_wraps_error (wait : Harness) (p : plan) (ctx : Context) (hist : List Call) :
    (∀ inner hist1,
      wait (WaitIdentityProviderAssociatedProcedure.condition ⟨p⟩ ctx) hist
        = (.returned inner, hist1) →
      ∃ result, WaitIdentityProviderAssociatedProcedure.Do wait ⟨p⟩ ctx hist
          = (.returned result, hist1) ∧
        WrapsWith "failed waiting for identity provider association to be ready" inner result) ∧
    (∀ inner hist1,
      wait (DisassociateIdentityProviderConfig.condition ⟨p⟩ ctx) hist
        = (.returned inner, hist1) →
      ∃ result, DisassociateIdentityProviderConfig.Do wait ⟨p⟩ ctx hist
          = (.returned result, hist1) ∧
        WrapsWith "failing disassociating identity provider config" inner result) ∧
    (∀ desired, p.desiredIdentityProvider = some desired →
      ∃ result, (AssociateIdentityProviderProcedure.Do ⟨p⟩ ctx hist).1 = .returned result ∧
        WrapsWith "failed associating identity provider"
          (callError (p.eksClient.AssociateIdentityProviderConfigWithContext hist ctx
            (AssociateIdentityProviderProcedure.input p.clusterName desired))) result) ∧
    (∀ current desired, p.currentIdentityProvider = some current →
      p.desiredIdentityProvider = some desired →
      ∃ result, (UpdatedIdentityProviderTagsProcedure.Do ⟨p⟩ ctx hist).1 = .returned result ∧
        WrapsWith "updating identity provider tags"
          (callError (p.eksClient.TagResource hist
            { ResourceArn := current.IdentityProviderConfigArn
              Tags := some (aws_StringMap desired.Tags) })) result) ∧
    (∀ current, p.currentIdentityProvider = some current →
      ∃ result, (RemoveIdentityProviderTagsProcedure.Do ⟨p⟩ ctx hist).1 = .returned result ∧
        WrapsWith "untagging identity provider"
          (callError (p.eksClient.UntagResource hist
            { ResourceArn := current.IdentityProviderConfigArn
              TagKeys := (GoMap.keys current.Tags).map aws_String })) result) := by
  refine ⟨?_, ?_, ?_, ?_, ?_⟩
  · intro inner hist1 hrun
    refine ⟨errors.Wrap inner _, ?_, wrapsWith_wrap _ inner⟩
    simp only [WaitIdentityProviderAssociatedProcedure.Do, hrun]
    cases inner <;> rfl
  · intro inner hist1 hrun
    refine ⟨errors.Wrap inner _, ?_, wrapsWith_wrap _ inner⟩
    simp only [DisassociateIdentityProviderConfig.Do, hrun]
    cases inner <;> rfl
  · intro desired hdes
    refine ⟨errors.Wrap _ _, ?_, wrapsWith_wrap _ _⟩
    simp only [AssociateIdentityProviderProcedure.Do, hdes]
    split <;> rename_i heq <;> rw [heq] <;> rfl
  · intro current desired hcur hdes
    refine ⟨errors.Wrap _ _, ?_, wrapsWith_wrap _ _⟩
    simp only [UpdatedIdentityProviderTagsProcedure.Do, hcur, hdes]
    split <;> rename_i heq <;> rw [heq] <;> rfl
  · intro current hcur
    refine ⟨errors.Wrap _ _, ?_, wrapsWith_wrap _ _⟩
    simp only [RemoveIdentityProviderTagsProcedure.Do, hcur, collectKeys_eq, List.nil_append]
    split <;> rename_i heq <;> rw [heq] <;> rfl

/-- Witness of `Do_wraps_error` on a plan with both configs whose service fails the first
Describe or Disassociate call with `transientError` and accepts the other calls, under the
harness of `strictBackoff`: the two harness runs end with `transientError`, which comes back
wrapped; the three one-shot calls succeed. -/
theorem Do_wraps_error_witness :
    (∃ result, WaitIdentityProviderAssociatedProcedure.Do (WaitForWithRetryable strictBackoff)
        ⟨examplePlan 1 0 (some [("a", "1")]) (some [("b", "2")])⟩ exampleCtx []
        = (.returned result,
            [Call.DescribeIdentityProviderConfigWithContext exampleCtx
              (describeInput "c1" "idp")]) ∧
      WrapsWith "failed waiting for identity provider association to be ready"
        (some transientError) result) ∧
    (∃ result, DisassociateIdentityProviderConfig.Do (WaitForWithRetryable strictBackoff)
        ⟨examplePlan 1 0 (some [("a", "1")]) (some [("b", "2")])⟩ exampleCtx []
        = (.returned result,
            [Call.DisassociateIdentityProviderConfigWithContext exampleCtx
              (disassociateInput "c1" "idp")]) ∧
      WrapsWith "failing disassociating identity provider config"
        (some transientError) result) ∧
    (∃ result, (AssociateIdentityProviderProcedure.Do
        ⟨examplePlan 1 0 (some [("a", "1")]) (some [("b", "2")])⟩ exampleCtx []).1
        = .returned result ∧
      WrapsWith "failed associating identity provider" none result) ∧
    (∃ result, (UpdatedIdentityProviderTagsProcedure.Do
        ⟨examplePlan 1 0 (some [("a", "1")]) (some [("b", "2")])⟩ exampleCtx []).1
        = .returned result ∧
      WrapsWith "updating identity provider tags" none result) ∧
    (∃ result, (RemoveIdentityProviderTagsProcedure.Do
        ⟨examplePlan 1 0 (some [("a", "1")]) (some [("b", "2")])⟩ exampleCtx []).1
        = .returned result ∧
      WrapsWith "untagging identity provider" none result) :=
  ⟨(Do_wraps_error (WaitForWithRetryable strictBackoff)
      (examplePlan 1 0 (some [("a", "1")]) (some [("b", "2")])) exampleCtx []).1
      (some transientError) _ (by decide),
   (Do_wraps_error (WaitForWithRetryable strictBackoff)
      (examplePlan 1 0 (some [("a", "1")]) (some [("b", "2")])) exampleCtx []).2.1
      (some transientError) _ (by decide),
   (Do_wraps_error (WaitForWithRetryable strictBackoff)
      (examplePlan 1 0 (some [("a", "1")]) (some [("b", "2")])) exampleCtx []).2.2.1
      (exampleConfig [("b", "2")]) rfl,
   (Do_wraps_error (WaitForWithRetryable strictBackoff)
      (examplePlan 1 0 (some [("a", "1")]) (some [("b", "2")])) exampleCtx []).2.2.2.1
      (exampleConfig [("a", "1")]) (exampleConfig [("b", "2")]) rfl rfl,
   (Do_wraps_error (WaitForWithRetryable strictBackoff)
      (examplePlan 1 0 (some [("a", "1")]) (some [("b", "2")])) exampleCtx []).2.2.2.2
      (exampleConfig [("a", "1")]) rfl⟩

/-! ## C8: the context of the remote calls -/

/-- C8 fails on the code at UpdateTags and RemoveTags: `Do(ctx)` of either issues its call
through a client method that takes no context, so the call does not carry `ctx`, while the
calls of Associate, Disassociate and WaitAssociated on the same plan carry it. -/
theorem tagging_calls_carry_no_context :
    (UpdatedIdentityProviderTagsProcedure.Do
        ⟨examplePlan 0 0 (some [("a", "1")]) (some [("a", "1"), ("b", "2")])⟩
        exampleCtx []).2.map Call.ctx = [none] ∧
    (RemoveIdentityProviderTagsProcedure.Do
        ⟨examplePlan 0 0 (some [("a", "1")]) (some [("a", "1"), ("b", "2")])⟩
        exampleCtx []).2.map Call.ctx = [none] ∧
    (AssociateIdentityProviderProcedure.Do
        ⟨examplePlan 0 0 (some [("a", "1")]) (some [("a", "1"), ("b", "2")])⟩
        exampleCtx []).2.map Call.ctx = [some exampleCtx] ∧
    (DisassociateIdentityProviderConfig.Do (WaitForWithRetryable exampleBackoff)
        ⟨examplePlan 0 0 (some [("a", "1")]) (some [("a", "1"), ("b", "2")])⟩
        exampleCtx []).2.map Call.ctx = [some exampleCtx] ∧
    (WaitIdentityProviderAssociatedProcedure.Do (WaitForWithRetryable exampleBackoff)
        ⟨examplePlan 0 0 (some [("a", "1")]) (some [("a", "1"), ("b", "2")])⟩
        exampleCtx []).2.map Call.ctx = [some exampleCtx] := by
  refine ⟨by decide, by decide, by decide, by decide, by decide⟩

end identityprovider
